import Mathlib

/-!
Verification development for the TextScanTranslator repository (src/app.py).

The program is a linear pipeline: input acquisition (text file or OCR over an
image), translation, LSA summarization, speech synthesis, persistence to a
Firestore document store, and a history query tab.  Every external call
(deep_translator, sumy, gTTS, pytesseract, firebase_admin) is modelled as an
explicit parameter of the embedding; the control flow, sentinel strings, and
state handling around those calls are translated directly from src/app.py.
Python `if not s.strip():` tests are modelled with `isBlank`: the stripped
string is empty exactly when every character of `s` is whitespace.
-/

namespace App

/-- Python truthiness test `not s.strip()`: stripping leading and trailing
whitespace leaves the empty string iff every character is whitespace. -/
def isBlank (s : String) : Bool :=
  s.toList.all Char.isWhitespace

/-- Embedding of `summarize_text` (src/app.py lines 49-65).

The external sumy pipeline — `PlaintextParser.from_string(text,
Tokenizer("english"))` followed by `LsaSummarizer()(parser.document,
sentences_count)` — is abstracted as the parameter `lsa`, taking the tokenizer
language string, the text, and the sentence count, and returning the selected
sentences (as strings, in the order sumy yields them).  The source passes the
constant `"english"` as the tokenizer language.  `" ".join(str(s) for s in
summary)` is `String.intercalate " "`; `if not summary` is the empty-list
test.  The surrounding `try/except` can only fire inside the external sumy
calls, which the total parameter `lsa` abstracts, so the error branch
("Error occurred during summarization.") is unreachable in this model. -/
def summarize_text (lsa : String → String → Nat → List String)
    (text : String) (sentences_count : Nat := 3) : String :=
  if isBlank text then
    "No text to summarize."
  else
    let summary := lsa "english" text sentences_count
    if summary = [] then
      "Couldn\x27t generate summary. Text might be too short or complex."
    else
      String.intercalate " " summary

/-- Embedding of `text_to_speech` (src/app.py lines 68-83).

Externals: `tts_ok` is whether `gTTS(...).save(audio_path)` succeeds, and
`tmp_path` is the fresh name produced by `tempfile.NamedTemporaryFile
(delete=False, suffix=".mp3")`.  The result pairs the returned value (the
audio path, or `None`) with the list of temporary files that exist on disk
when the call returns.  The empty-input check runs before the temporary file
is created, so that branch creates no file; in the non-empty branches the
file named `tmp_path` has been created with `delete=False` and is still on
disk at return (the caller, not this function, removes it — and on a gTTS
failure nothing removes it at all). -/
def text_to_speech (tts_ok : Bool) (tmp_path : String)
    (text : String) (lang_code : String) : Option String × List String :=
  if isBlank text then
    (none, [])
  else if tts_ok then
    (some tmp_path, [tmp_path])
  else
    (none, [tmp_path])

/-- Embedding of `extract_text_from_image` (src/app.py lines 86-97).

The external OCR call `pytesseract.image_to_string(image)` is abstracted as
`ocr_result : Option String`: `some t` is a normal return of text `t`, `none`
is a raised exception, which the `except` clause converts to the error
sentinel string. -/
def extract_text_from_image (ocr_result : Option String) : String :=
  match ocr_result with
  | none => "Error occurred during text extraction."
  | some text =>
    if isBlank text then "No text detected in the image." else text

/-- Fixed catalog of target languages (src/app.py lines 142-152). -/
def language_map : List (String × String) :=
  [("Bengali", "bn"), ("Gujarati", "gu"), ("Hindi", "hi"), ("Malayalam", "ml"),
   ("Marathi", "mr"), ("Punjabi", "pa"), ("Tamil", "ta"), ("Telugu", "te"),
   ("Urdu", "ur")]

/-- External collaborators of one `process_text` run.

`translate lang_code text` models `translate(source="auto",
target=lang_code).translate(text)`: `some s` is a normal return, `none` a
raised provider exception (caught by the outer `except` of `process_text`,
which reports an error and runs nothing further).  `lsa` is the sumy pipeline
as in `summarize_text`; `tts_ok` and `tmp_path` are as in `text_to_speech`. -/
structure Externals where
  translate : String → String → Option String
  lsa : String → String → Nat → List String
  tts_ok : Bool
  tmp_path : String

/-- Values storable in a Firestore document field, as used by this app. -/
inductive FsValue
  | str (s : String)
  | bool (b : Bool)
  deriving DecidableEq

/-- Python dict in insertion order (keys unique, as Python guarantees). -/
abbrev Dict := List (String × FsValue)

/-- Python dict assignment `d[k] = v`: replace the value in place when the key
is present, otherwise append the new pair at the end (insertion order). -/
def dictSet (d : Dict) (k : String) (v : FsValue) : Dict :=
  match d with
  | [] => [(k, v)]
  | p :: rest => if p.1 == k then (k, v) :: rest else p :: dictSet rest k v

/-- Python dict lookup `d[k]` (as an `Option`). -/
def dictGet (d : Dict) (k : String) : Option FsValue :=
  match d with
  | [] => none
  | p :: rest => if p.1 == k then some p.2 else dictGet rest k

/-- Observable outcome of one successful (no translation exception) run of
`process_text` (src/app.py lines 308-409).  The three invocation flags record
that the corresponding source lines executed during the run: `tts_invoked`
(line 347, the `text_to_speech` call), `save_attempted` (line 376, the
`save_to_firebase` call), `downloads_offered` (lines 384-406, the download
buttons).  In the source these lines are executed unconditionally once
translation has returned, whatever string `summary` holds. -/
structure RunResult where
  translated_text : String
  summary : String
  audio_path : Option String
  tts_invoked : Bool
  save_attempted : Bool
  downloads_offered : Bool
  firebase_data : Dict
  deriving DecidableEq

/-- Embedding of `process_text` (src/app.py lines 308-409), from the point
where the Translate button handler enters its `try` block (line 330).
`selected_language` and `lang_code` are the selectbox choice and its code
from `language_map`.  A `none` result is the outer `except` path: the
translation call raised, and no later stage ran.  On a normal translation
return, the source unconditionally summarizes, calls `text_to_speech` on the
summary, builds `firebase_data`, calls `save_to_firebase`, and renders the
download buttons. -/
def process_text (e : Externals) (text : String)
    (selected_language lang_code : String) (source_is_image : Bool) :
    Option RunResult :=
  match e.translate lang_code text with
  | none => none
  | some translated_text =>
    let summary := summarize_text e.lsa translated_text 3
    let tts := text_to_speech e.tts_ok e.tmp_path summary lang_code
    let audio_path := tts.1
    let firebase_data : Dict :=
      [("original_text", FsValue.str text),
       ("source_type", FsValue.str (if source_is_image then "image" else "text_file")),
       ("target_language", FsValue.str selected_language),
       ("target_language_code", FsValue.str lang_code),
       ("translated_text", FsValue.str translated_text),
       ("summary", FsValue.str summary),
       ("has_audio", FsValue.bool audio_path.isSome)]
    some { translated_text := translated_text
           summary := summary
           audio_path := audio_path
           tts_invoked := true
           save_attempted := true
           downloads_offered := true
           firebase_data := firebase_data }

/-- Embedding of the Image tab logic (src/app.py lines 182-193).  The
extracted text is computed by `extract_text_from_image`; `process_text` is
invoked (with `source_is_image=True`) only when the extracted text is truthy
and differs from both sentinel strings, otherwise a warning is shown instead
(`none`).  All of translation, summarization, speech synthesis and
persistence happen only inside `process_text`. -/
def image_tab (e : Externals) (ocr_result : Option String)
    (selected_language lang_code : String) : Option (Option RunResult) :=
  let extracted := extract_text_from_image ocr_result
  if extracted != "" && extracted != "No text detected in the image."
      && extracted != "Error occurred during text extraction." then
    some (process_text e extracted selected_language lang_code true)
  else
    none

/-- Helper: a whitespace-only OCR result makes the Image tab show a warning
instead of invoking `process_text`. -/
theorem image_tab_blank (e : Externals) (t sl lc : String)
    (h : isBlank t = true) :
    image_tab e (some t) sl lc = none := by
  simp [image_tab, extract_text_from_image, h]

/-- Helper: the empty-content sentinel of `summarize_text` is not itself a
blank string. -/
theorem isBlank_no_text_sentinel : isBlank "No text to summarize." = false := by
  decide

/-- C4: summarize_text on a string whose strip is empty returns exactly the
sentinel "No text to summarize." for every sentence count and never raises
(the embedding is a total function whose empty branch precedes every external
call). -/
theorem summarize_empty_returns_sentinel
    (lsa : String → String → Nat → List String) (text : String) (k : Nat)
    (h : isBlank text = true) :
    summarize_text lsa text k = "No text to summarize." := by
  simp [summarize_text, h]

theorem summarize_empty_returns_sentinel_witness :
    summarize_text (fun _ _ _ => []) "   " 5 = "No text to summarize." :=
  summarize_empty_returns_sentinel (fun _ _ _ => []) "   " 5 (by decide)

/-- C6: text_to_speech on a string whose strip is empty returns None without
error, and the set of temporary files created or left behind by the call is
empty (the empty-input check precedes the NamedTemporaryFile creation). -/
theorem tts_empty_no_artifact_no_tempfile
    (tts_ok : Bool) (tmp_path text lang_code : String)
    (h : isBlank text = true) :
    text_to_speech tts_ok tmp_path text lang_code = (none, []) := by
  simp [text_to_speech, h]

theorem tts_empty_no_artifact_no_tempfile_witness :
    text_to_speech true "/tmp/a.mp3" "" "hi" = (none, []) :=
  tts_empty_no_artifact_no_tempfile true "/tmp/a.mp3" "" "hi" (by decide)

/-- C5: when OCR returns only whitespace, extract_text_from_image returns
exactly the sentinel "No text detected in the image.", and the Image tab does
not invoke process_text for that input (result `none`), so no translation,
summarization, speech synthesis, or persistence runs: those stages exist only
inside process_text. -/
theorem ocr_whitespace_sentinel_halts
    (e : Externals) (t selected_language lang_code : String)
    (h : isBlank t = true) :
    extract_text_from_image (some t) = "No text detected in the image."
    ∧ image_tab e (some t) selected_language lang_code = none := by
  constructor
  · simp [extract_text_from_image, h]
  · simp [image_tab, extract_text_from_image, h]

theorem ocr_whitespace_sentinel_halts_witness :
    extract_text_from_image (some " \n ") = "No text detected in the image."
    ∧ image_tab ⟨fun _ t => some t, fun _ _ _ => [], true, "/tmp/a.mp3"⟩
        (some " \n ") "Hindi" "hi" = none :=
  ocr_whitespace_sentinel_halts ⟨fun _ t => some t, fun _ _ _ => [], true, "/tmp/a.mp3"⟩
    " \n " "Hindi" "hi" (by decide)

/-- C7: for a non-blank text whose external LSA pipeline extracts n sentences
with 0 < n < k (sumy returns every available sentence when fewer than the
requested count exist), summarize_text returns exactly those n sentences
joined by single spaces — the error branch is not taken; and when the
external summarizer selects no sentences at all, summarize_text returns the
sentinel "Couldn't generate summary. Text might be too short or complex.". -/
theorem summarize_fewer_sentences_than_requested
    (lsa lsa0 : String → String → Nat → List String)
    (text : String) (k n : Nat) (sents : List String)
    (h1 : isBlank text = false)
    (h2 : sents.length = n) (h3 : 0 < n) (h4 : n < k)
    (h5 : lsa "english" text k = sents)
    (h6 : lsa0 "english" text k = ([] : List String)) :
    summarize_text lsa text k = String.intercalate " " sents
    ∧ summarize_text lsa0 text k
        = "Couldn\x27t generate summary. Text might be too short or complex." := by
  have hne : sents ≠ [] := by
    intro he
    rw [he] at h2
    simp at h2
    omega
  constructor
  · simp [summarize_text, h1, h5, hne]
  · simp [summarize_text, h1, h6]

theorem summarize_fewer_sentences_than_requested_witness :
    summarize_text (fun _ _ _ => ["A.", "B."]) "A. B." 3 = "A. B."
    ∧ summarize_text (fun _ _ _ => ([] : List String)) "A. B." 3
        = "Couldn\x27t generate summary. Text might be too short or complex." :=
  summarize_fewer_sentences_than_requested
    (fun _ _ _ => ["A.", "B."]) (fun _ _ _ => ([] : List String))
    "A. B." 3 2 ["A.", "B."] (by decide) rfl (by decide) (by decide) rfl rfl

/-- Probe pipeline that reports the tokenizer language it was invoked with as
the single selected sentence, making the language argument observable in the
output of summarize_text. -/
def probeLsa : String → String → Nat → List String :=
  fun lang _ _ => [lang]

/-- Second probe pipeline: agrees with `probeLsa` when invoked with the
English tokenizer, echoes the input text otherwise. -/
def probeLsaEnglishOnly : String → String → Nat → List String :=
  fun lang t _ => if lang == "english" then [lang] else [t]

/-- C2 counterexample: the tokenizer language summarize_text passes to the
sumy pipeline is the constant "english" — observed via a probe pipeline that
returns the language it was invoked with — both for a Hindi text and for an
English text.  The tokenizer is therefore fixed to a single language, not
language-aware, refuting the claim. -/
theorem tokenizer_fixed_probe :
    summarize_text probeLsa "यह एक हिंदी वाक्य है।" 3 = "english"
    ∧ summarize_text probeLsa "This is an English sentence." 3 = "english" :=
  ⟨rfl, rfl⟩

/-- C2 amended: summarize_text tokenizes with the sumy tokenizer fixed to the
single language English (`Tokenizer("english")` in the source), regardless of
the language of the text being summarized: two external pipelines that agree
on their English-tokenizer behavior produce identical summaries on every
input. -/
theorem summarize_tokenizer_fixed_english
    (lsa1 lsa2 : String → String → Nat → List String) (text : String) (k : Nat)
    (h : ∀ t c, lsa1 "english" t c = lsa2 "english" t c) :
    summarize_text lsa1 text k = summarize_text lsa2 text k := by
  simp [summarize_text, h text k]

theorem summarize_tokenizer_fixed_english_witness :
    summarize_text probeLsa "नमस्ते दुनिया। यह एक परीक्षण है।" 4
      = summarize_text probeLsaEnglishOnly "नमस्ते दुनिया। यह एक परीक्षण है।" 4 :=
  summarize_tokenizer_fixed_english probeLsa probeLsaEnglishOnly
    "नमस्ते दुनिया। यह एक परीक्षण है।" 4 (fun _ _ => rfl)

/-- Externals of the C1 counterexample run: the translation provider returns
a whitespace-only translation (so summarize_text returns its empty-content
sentinel), and gTTS succeeds. -/
def blankTranslationExt : Externals :=
  { translate := fun _ _ => some " "
    lsa := fun _ _ _ => []
    tts_ok := true
    tmp_path := "/tmp/audio1.mp3" }

/-- C1 counterexample: a run of process_text in which summarize_text returns
the empty-content sentinel "No text to summarize." and yet the later stages
all run: speech synthesis is invoked on the sentinel (and produces an audio
artifact, since the sentinel is a non-blank string), the save to the store is
attempted, and the download buttons are offered — refuting the claim that
empty-content sentinels short-circuit the later stages of the run. -/
theorem summary_sentinel_later_stages_run :
    (process_text blankTranslationExt "Hello world." "Hindi" "hi" false).map
        (fun r => (r.summary, r.tts_invoked, r.audio_path,
                   r.save_attempted, r.downloads_offered))
      = some ("No text to summarize.", true, some "/tmp/audio1.mp3", true, true) := by
  rfl

/-- C1 amended: empty-content conditions short-circuit later stages only at
the OCR stage — a whitespace-only OCR result makes the Image tab skip
process_text entirely — while inside process_text the empty-content sentinel
of summarize_text does not short-circuit anything: speech synthesis is still
invoked (on the sentinel text, producing an audio artifact whenever gTTS
succeeds), persistence to the store is still attempted, and the download
offers are still made. -/
theorem short_circuit_only_at_ocr
    (e : Externals) (t text selected_language lang_code : String)
    (source_is_image : Bool) (r : RunResult)
    (hocr : isBlank t = true)
    (hrun : process_text e text selected_language lang_code source_is_image = some r)
    (hsum : r.summary = "No text to summarize.") :
    image_tab e (some t) selected_language lang_code = none
    ∧ r.tts_invoked = true ∧ r.save_attempted = true ∧ r.downloads_offered = true
    ∧ (e.tts_ok = true → r.audio_path = some e.tmp_path) := by
  unfold process_text at hrun
  cases htr : e.translate lang_code text with
  | none =>
    rw [htr] at hrun
    exact absurd hrun (by simp)
  | some translated_text =>
    rw [htr] at hrun
    injection hrun with hr
    subst hr
    refine ⟨image_tab_blank e t selected_language lang_code hocr, rfl, rfl, rfl, ?_⟩
    intro hok
    have hsum2 : summarize_text e.lsa translated_text 3 = "No text to summarize." := hsum
    show (text_to_speech e.tts_ok e.tmp_path
            (summarize_text e.lsa translated_text 3) lang_code).1 = some e.tmp_path
    rw [hsum2, hok]
    simp [text_to_speech, isBlank_no_text_sentinel]

/-- Concrete RunResult of the amended-claim witness run. -/
def blankRun : RunResult :=
  { translated_text := " "
    summary := "No text to summarize."
    audio_path := some "/tmp/audio1.mp3"
    tts_invoked := true
    save_attempted := true
    downloads_offered := true
    firebase_data :=
      [("original_text", FsValue.str "Hello world."),
       ("source_type", FsValue.str "text_file"),
       ("target_language", FsValue.str "Hindi"),
       ("target_language_code", FsValue.str "hi"),
       ("translated_text", FsValue.str " "),
       ("summary", FsValue.str "No text to summarize."),
       ("has_audio", FsValue.bool true)] }

theorem short_circuit_only_at_ocr_witness :
    image_tab blankTranslationExt (some "\t") "Hindi" "hi" = none
    ∧ blankRun.tts_invoked = true ∧ blankRun.save_attempted = true
    ∧ blankRun.downloads_offered = true
    ∧ (blankTranslationExt.tts_ok = true →
        blankRun.audio_path = some blankTranslationExt.tmp_path) :=
  short_circuit_only_at_ocr blankTranslationExt "\t" "Hello world." "Hindi" "hi"
    false blankRun (by decide) (by decide) rfl

/-- Firestore client handle returned by `firestore.client()`; its internals
are external to this program. -/
abbrev FirestoreClient := Unit

/-- Memo state of `@st.cache_resource` on initialize_firebase, together with
a count of how many times the function body (an initialization attempt)
actually ran.  `cache = none` means no call has completed yet; `cache = some
r` means the result `r` (possibly `None`) is memoized for the remainder of
the process lifetime. -/
structure FirebaseState where
  cache : Option (Option FirestoreClient)
  initAttempts : Nat
  deriving DecidableEq

/-- Embedding of `initialize_firebase` (src/app.py lines 25-46) under
`@st.cache_resource`.  `attempt_result` abstracts the whole `try` body —
credential resolution from the FIREBASE_CREDENTIALS environment variable or
the fallback credential file, `firebase_admin.initialize_app`, and
`firestore.client()`: `some c` when it returns a client, `none` when any step
raises (the `except` clause reports the error and returns `None`).
Streamlit memoizes whatever the body returns — including `None` — so a
cached result is returned without re-running the body. -/
def initialize_firebase (attempt_result : Option FirestoreClient)
    (s : FirebaseState) : Option FirestoreClient × FirebaseState :=
  match s.cache with
  | some r => (r, s)
  | none =>
    (attempt_result,
     { cache := some attempt_result, initAttempts := s.initAttempts + 1 })

/-- Remote `translations` collection: documents keyed by identifier. -/
abbrev Store := List (String × Dict)

/-- Embedding of `save_to_firebase` (src/app.py lines 100-121).  `doc_id` is
the external fresh identifier `str(uuid.uuid4())`; `client_now` is the value
of `datetime.datetime.now().isoformat()` — the clock of the CLIENT process at
save time.  When no client is available the function warns and returns
`False`; otherwise it assigns `data["timestamp"]` (the returned `Dict` is the
caller-visible dict after the call, since Python passes the dict by
reference) and writes the document into the `translations` collection. -/
def save_to_firebase (attempt_result : Option FirestoreClient)
    (doc_id client_now : String) (data : Dict)
    (s : FirebaseState) (store : Store) :
    Bool × Dict × FirebaseState × Store :=
  match initialize_firebase attempt_result s with
  | (none, s2) => (false, data, s2, store)
  | (some _, s2) =>
    let data2 := dictSet data "timestamp" (FsValue.str client_now)
    (true, data2, s2, store ++ [(doc_id, data2)])

/-- Helper: looking up the key just assigned returns the assigned value. -/
theorem dictGet_dictSet_self (d : Dict) (k : String) (v : FsValue) :
    dictGet (dictSet d k v) k = some v := by
  induction d with
  | nil => simp [dictSet, dictGet]
  | cons p rest ih =>
    by_cases h : p.1 = k
    · simp [dictSet, dictGet, h]
    · simp [dictSet, dictGet, h, ih]

/-- Helper: assigning one key leaves the lookup of every other key as it
was. -/
theorem dictGet_dictSet_ne (d : Dict) (k q : String) (v : FsValue)
    (h : q ≠ k) :
    dictGet (dictSet d k v) q = dictGet d q := by
  induction d with
  | nil => simp [dictSet, dictGet, Ne.symm h]
  | cons p rest ih =>
    by_cases hp : p.1 = k
    · simp [dictSet, dictGet, hp, Ne.symm h]
    · by_cases hq : p.1 = q
      · simp [dictSet, dictGet, hp, hq, h]
      · simp [dictSet, dictGet, hp, hq, ih]

/-- C9: when the store client is available, save_to_firebase mutates the dict
passed as data — the caller-visible dict after the call has gained the
"timestamp" key, set to the client clock value in ISO format, while the
lookup of every other key is unchanged. -/
theorem save_mutates_only_timestamp
    (attempt_result : Option FirestoreClient) (doc_id client_now : String)
    (data : Dict) (s : FirebaseState) (store : Store) (q : String)
    (hq : q ≠ "timestamp")
    (h : (initialize_firebase attempt_result s).1.isSome = true) :
    (save_to_firebase attempt_result doc_id client_now data s store).2.1
      = dictSet data "timestamp" (FsValue.str client_now)
    ∧ dictGet (save_to_firebase attempt_result doc_id client_now data s store).2.1
        "timestamp" = some (FsValue.str client_now)
    ∧ dictGet (save_to_firebase attempt_result doc_id client_now data s store).2.1
        q = dictGet data q := by
  cases hini : initialize_firebase attempt_result s with
  | mk db s2 =>
    rw [hini] at h
    cases db with
    | none => simp at h
    | some c =>
      unfold save_to_firebase
      rw [hini]
      exact ⟨rfl, dictGet_dictSet_self data "timestamp" (FsValue.str client_now),
             dictGet_dictSet_ne data "timestamp" q (FsValue.str client_now) hq⟩

theorem save_mutates_only_timestamp_witness :
    (save_to_firebase (some ()) "3f2b" "2024-01-01T00:00:00"
        [("original_text", FsValue.str "hi")] ⟨none, 0⟩ []).2.1
      = dictSet [("original_text", FsValue.str "hi")] "timestamp"
          (FsValue.str "2024-01-01T00:00:00")
    ∧ dictGet (save_to_firebase (some ()) "3f2b" "2024-01-01T00:00:00"
        [("original_text", FsValue.str "hi")] ⟨none, 0⟩ []).2.1 "timestamp"
      = some (FsValue.str "2024-01-01T00:00:00")
    ∧ dictGet (save_to_firebase (some ()) "3f2b" "2024-01-01T00:00:00"
        [("original_text", FsValue.str "hi")] ⟨none, 0⟩ []).2.1 "original_text"
      = dictGet [("original_text", FsValue.str "hi")] "original_text" :=
  save_mutates_only_timestamp (some ()) "3f2b" "2024-01-01T00:00:00"
    [("original_text", FsValue.str "hi")] ⟨none, 0⟩ [] "original_text"
    (by decide) rfl

/-- C10: once an initialization attempt fails, initialize_firebase returns
None and the None is memoized: every later call — whatever a fresh attempt
would now return — yields None from the cache without re-running the body
(the state, including the attempt counter, is unchanged), and consequently
every later save_to_firebase call returns False and writes nothing. -/
theorem init_failure_cached_forever
    (s0 s1 : FirebaseState) (r1 attempt2 : Option FirestoreClient)
    (doc_id client_now : String) (data : Dict) (store : Store)
    (h0 : s0.cache = none)
    (h1 : initialize_firebase none s0 = (r1, s1)) :
    r1 = none
    ∧ s1.cache = some none
    ∧ initialize_firebase attempt2 s1 = (none, s1)
    ∧ (save_to_firebase attempt2 doc_id client_now data s1 store).1 = false
    ∧ (save_to_firebase attempt2 doc_id client_now data s1 store).2.2.2 = store := by
  unfold initialize_firebase at h1
  rw [h0] at h1
  injection h1 with hr hs
  subst hr
  subst hs
  refine ⟨rfl, rfl, rfl, ?_, ?_⟩ <;>
    simp [save_to_firebase, initialize_firebase]

theorem init_failure_cached_forever_witness :
    (none : Option FirestoreClient) = none
    ∧ (⟨some none, 1⟩ : FirebaseState).cache = some none
    ∧ initialize_firebase (some ()) ⟨some none, 1⟩ = (none, (⟨some none, 1⟩ : FirebaseState))
    ∧ (save_to_firebase (some ()) "3f2b" "2024-01-01T00:00:00" [] ⟨some none, 1⟩ []).1 = false
    ∧ (save_to_firebase (some ()) "3f2b" "2024-01-01T00:00:00" [] ⟨some none, 1⟩ []).2.2.2 = [] :=
  init_failure_cached_forever ⟨none, 0⟩ ⟨some none, 1⟩ none (some ())
    "3f2b" "2024-01-01T00:00:00" [] [] rfl rfl

/-- C3 counterexample: two saves that are identical except for the client
clock value store records whose "timestamp" fields are the two distinct
client clock values — the timestamp written by save_to_firebase is
`datetime.datetime.now().isoformat()` computed on the client, not a value
assigned by the server. -/
theorem timestamp_depends_on_client_clock :
    (save_to_firebase (some ()) "doc-1" "2024-01-01T00:00:00" [] ⟨none, 0⟩ []).2.2.2
      = [("doc-1", [("timestamp", FsValue.str "2024-01-01T00:00:00")])]
    ∧ (save_to_firebase (some ()) "doc-1" "2099-12-31T23:59:59" [] ⟨none, 0⟩ []).2.2.2
      = [("doc-1", [("timestamp", FsValue.str "2099-12-31T23:59:59")])]
    ∧ ("2024-01-01T00:00:00" : String) ≠ "2099-12-31T23:59:59" := by
  refine ⟨rfl, rfl, ?_⟩
  decide

/-- C3 amended: when the store client is available, save_to_firebase returns
True and appends the record to the remote collection under the freshly
generated uuid identifier, with the record timestamp field set to the CLIENT
clock reading (datetime.now().isoformat()) taken at save time — not to a
server-assigned time. -/
theorem save_writes_fresh_doc_client_timestamp
    (attempt_result : Option FirestoreClient) (doc_id client_now : String)
    (data : Dict) (s : FirebaseState) (store : Store)
    (h : (initialize_firebase attempt_result s).1.isSome = true) :
    (save_to_firebase attempt_result doc_id client_now data s store).1 = true
    ∧ (save_to_firebase attempt_result doc_id client_now data s store).2.2.2
      = store ++ [(doc_id, dictSet data "timestamp" (FsValue.str client_now))]
    ∧ dictGet (save_to_firebase attempt_result doc_id client_now data s store).2.1
        "timestamp" = some (FsValue.str client_now) := by
  cases hini : initialize_firebase attempt_result s with
  | mk db s2 =>
    rw [hini] at h
    cases db with
    | none => simp at h
    | some c =>
      unfold save_to_firebase
      rw [hini]
      exact ⟨rfl, rfl, dictGet_dictSet_self data "timestamp" (FsValue.str client_now)⟩

theorem save_writes_fresh_doc_client_timestamp_witness :
    (save_to_firebase (some ()) "doc-7" "2025-05-05T10:00:00" [] ⟨none, 0⟩ []).1 = true
    ∧ (save_to_firebase (some ()) "doc-7" "2025-05-05T10:00:00" [] ⟨none, 0⟩ []).2.2.2
      = [] ++ [("doc-7", dictSet [] "timestamp" (FsValue.str "2025-05-05T10:00:00"))]
    ∧ dictGet (save_to_firebase (some ()) "doc-7" "2025-05-05T10:00:00" [] ⟨none, 0⟩ []).2.1
        "timestamp" = some (FsValue.str "2025-05-05T10:00:00") :=
  save_writes_fresh_doc_client_timestamp (some ()) "doc-7" "2025-05-05T10:00:00"
    [] ⟨none, 0⟩ [] (by decide)

/-- Translation Record as stored in the `translations` collection (the
fields built at src/app.py lines 365-373; `timestamp` added at save). -/
structure TranslationRecord where
  original_text : String
  source_type : String
  target_language : String
  target_language_code : String
  translated_text : String
  summary : String
  has_audio : Bool
  timestamp : String
  deriving DecidableEq

/-- Descending-timestamp order used by the history query. -/
def tsDesc (a b : TranslationRecord) : Prop :=
  b.timestamp ≤ a.timestamp

instance : DecidableRel tsDesc := fun a b =>
  inferInstanceAs (Decidable (b.timestamp ≤ a.timestamp))

instance : IsTotal TranslationRecord tsDesc :=
  ⟨fun a b => le_total b.timestamp a.timestamp⟩

instance : IsTrans TranslationRecord tsDesc :=
  ⟨fun _ _ _ hab hbc => le_trans hbc hab⟩

/-- Firestore `query.where(field, "==", v)`: keep the documents whose field
equals the value. -/
def whereEq (field : TranslationRecord → String) (v : String)
    (q : List TranslationRecord) : List TranslationRecord :=
  q.filter (fun r => field r == v)

/-- Firestore `query.order_by("timestamp", direction=DESCENDING)`. -/
def orderByTimestampDesc (q : List TranslationRecord) : List TranslationRecord :=
  List.insertionSort tsDesc q

/-- Embedding of the History tab query construction (src/app.py lines
231-248): the chain of `where` filters selected by the two filter widgets,
then `order_by("timestamp", DESCENDING).limit(10).get()`. -/
def history_query (filter_type filter_language : String)
    (translations_ref : List TranslationRecord) : List TranslationRecord :=
  let query :=
    if filter_type != "All" && filter_language != "All" then
      whereEq (fun r => r.target_language) filter_language
        (whereEq (fun r => r.source_type)
          (if filter_type == "Text File" then "text_file" else "image")
          translations_ref)
    else if filter_type != "All" then
      whereEq (fun r => r.source_type)
        (if filter_type == "Text File" then "text_file" else "image")
        translations_ref
    else if filter_language != "All" then
      whereEq (fun r => r.target_language) filter_language translations_ref
    else
      translations_ref
  (orderByTimestampDesc query).take 10

/-- Conjunction of exactly the selected equality predicates: the source-type
predicate when a source filter is selected, and the target-language predicate
when a language filter is selected. -/
def selectedPred (filter_type filter_language : String)
    (r : TranslationRecord) : Bool :=
  (filter_type == "All"
    || r.source_type == (if filter_type == "Text File" then "text_file" else "image"))
  && (filter_language == "All" || r.target_language == filter_language)

/-- C8: for every combination of the history filters (source type unset or
one of the two source types, target language unset or one of the nine
catalog languages), the query filters the collection by exactly the selected
equality predicates on source_type and target_language, orders the result by
timestamp descending, and returns at most 10 records, each of which
satisfies the selected predicates. -/
theorem history_query_filters_order_limit
    (filter_type filter_language : String) (recs : List TranslationRecord)
    (r : TranslationRecord)
    (hft : filter_type = "All" ∨ filter_type = "Text File" ∨ filter_type = "Image")
    (hfl : filter_language = "All" ∨ filter_language ∈ language_map.map Prod.fst)
    (hr : r ∈ history_query filter_type filter_language recs) :
    history_query filter_type filter_language recs
      = (orderByTimestampDesc (recs.filter
          (selectedPred filter_type filter_language))).take 10
    ∧ (history_query filter_type filter_language recs).length ≤ 10
    ∧ List.Sorted tsDesc (history_query filter_type filter_language recs)
    ∧ selectedPred filter_type filter_language r = true := by
  have hmain : history_query filter_type filter_language recs
      = (orderByTimestampDesc (recs.filter
          (selectedPred filter_type filter_language))).take 10 := by
    by_cases h1 : filter_type = "All"
    · by_cases h2 : filter_language = "All"
      · subst h1
        subst h2
        have hx : recs.filter (selectedPred "All" "All") = recs :=
          List.filter_eq_self.mpr (fun a _ => by simp [selectedPred])
        simp [history_query, hx]
      · subst h1
        have h2b : (filter_language == "All") = false := beq_eq_false_iff_ne.mpr h2
        have hx : recs.filter (selectedPred "All" filter_language)
            = recs.filter (fun r => r.target_language == filter_language) :=
          List.filter_congr (fun a _ => by simp [selectedPred, h2b])
        simp [history_query, whereEq, h2, h2b, hx]
    · have h1b : (filter_type == "All") = false := beq_eq_false_iff_ne.mpr h1
      by_cases h2 : filter_language = "All"
      · subst h2
        have hx : recs.filter (selectedPred filter_type "All")
            = recs.filter (fun r => r.source_type ==
                (if filter_type == "Text File" then "text_file" else "image")) :=
          List.filter_congr (fun a _ => by simp [selectedPred, h1b])
        simp [history_query, whereEq, h1, h1b, hx]
      · have h2b : (filter_language == "All") = false := beq_eq_false_iff_ne.mpr h2
        have hx : recs.filter (selectedPred filter_type filter_language)
            = (recs.filter (fun r => r.source_type ==
                (if filter_type == "Text File" then "text_file" else "image"))).filter
                  (fun r => r.target_language == filter_language) := by
          rw [List.filter_filter]
          exact List.filter_congr (fun a _ => by
            simp [selectedPred, h1b, h2b, Bool.and_comm])
        simp [history_query, whereEq, h1, h2, h1b, h2b, hx]
  refine ⟨hmain, ?_, ?_, ?_⟩
  · rw [hmain]
    exact List.length_take_le 10 _
  · rw [hmain]
    exact List.Pairwise.sublist (List.take_sublist _ _)
      (List.sorted_insertionSort tsDesc _)
  · rw [hmain] at hr
    have h3 := List.take_subset _ _ hr
    have h4 := (List.perm_insertionSort tsDesc _).subset h3
    exact (List.mem_filter.mp h4).2

/-- Sample stored record used by the C8 witness. -/
def sampleRecord : TranslationRecord :=
  { original_text := "The sun rises in the east."
    source_type := "image"
    target_language := "Hindi"
    target_language_code := "hi"
    translated_text := "surya purva mein ugta hai."
    summary := "surya purva mein ugta hai."
    has_audio := true
    timestamp := "2024-01-01T00:00:00" }

theorem history_query_filters_order_limit_witness :
    history_query "Image" "Hindi" [sampleRecord]
      = (orderByTimestampDesc ([sampleRecord].filter
          (selectedPred "Image" "Hindi"))).take 10
    ∧ (history_query "Image" "Hindi" [sampleRecord]).length ≤ 10
    ∧ List.Sorted tsDesc (history_query "Image" "Hindi" [sampleRecord])
    ∧ selectedPred "Image" "Hindi" sampleRecord = true :=
  history_query_filters_order_limit "Image" "Hindi" [sampleRecord] sampleRecord
    (by decide) (by decide) (by decide)

end App
